import Mathlib

/-!
Shallow embedding of `src/bot.py` (Telegram User Info Bot).

The bot is a stateless event router: three command handlers (`start`,
`myid_command`, `help_command`), a message handler (`handle_message`) that
classifies forwarded messages, and a button-press handler
(`handle_button_press`).

Modelling decisions, all read off the Python source:
* Optional Telegram fields (`username`, `language_code`, `forward_from`,
  `forward_from_chat`, `forward_sender_name`, `forward_date`) become
  `Option` fields.  Python truthiness of an optional string (an empty
  string is falsy) is `truthyStr`; a `User`/`Chat`/`datetime` object is
  truthy exactly when present, i.e. `Option.isSome`.
* Every network call (`reply_text`, `edit_message_text`, `delete_message`,
  `query.answer`) is a send of an `OutboundAction` that may raise; a
  failure oracle `fail : OutboundAction → Bool` says which sends raise.
* Python exceptions are `Except PyError`.  Two sources of exceptions occur
  in this code: a failing send (`PyError.sendError`) and an attribute
  lookup on a missing attribute (`PyError.attributeError name`).  The class
  `UserInfoBot` defines no method `show_chat_info` and no method
  `show_private_forward`, yet `handle_message` calls both
  (`self.show_chat_info(...)` at line 97, `self.show_private_forward(...)`
  at line 99); in Python those attribute lookups raise `AttributeError`.
  Likewise `help_command` evaluates `update.message.reply_text` and a
  callback-query update carries no `message`, so there the lookup on `None`
  raises.
* A handler run is a `HandlerResult`: the list of actions that were
  actually performed (in order) and, when an exception escaped the handler
  uncaught, that exception.
-/

structure User where
  id : Nat
  username : Option String
  is_bot : Bool
  language_code : Option String
deriving DecidableEq, Repr

structure Chat where
  id : Nat
  title : Option String
deriving DecidableEq, Repr

structure Msg where
  from_user : Option User
  forward_from : Option User
  forward_from_chat : Option Chat
  forward_sender_name : Option String
  forward_date : Option Nat
deriving DecidableEq, Repr

structure CallbackQuery where
  data : String
  from_user : User
deriving DecidableEq, Repr

structure Update where
  message : Option Msg
  callback_query : Option CallbackQuery
deriving DecidableEq, Repr

/-- `update.effective_user`: the user of the message for a message update,
the presser for a callback-query update. -/
def Update.effective_user (u : Update) : Option User :=
  match u.message with
  | some m => m.from_user
  | none =>
    match u.callback_query with
    | some q => some q.from_user
    | none => none

structure InlineKeyboardButton where
  text : String
  callback_data : String
deriving DecidableEq, Repr

/-- An inline keyboard: rows of buttons, as built by `InlineKeyboardMarkup`. -/
abbrev Keyboard := List (List InlineKeyboardButton)

/-- The outbound API calls the bot performs. -/
inductive OutboundAction where
  | sendMessage (text : String) (parse_mode : Option String) (reply_markup : Option Keyboard)
  | editMessageText (text : String) (parse_mode : Option String) (reply_markup : Option Keyboard)
  | deleteMessage
  | answerCallback
deriving DecidableEq, Repr

/-- Python exceptions that can arise while handling one event. -/
inductive PyError where
  | sendError
  | attributeError (name : String)
deriving DecidableEq, Repr

/-- Outcome of running one handler on one event: the outbound calls that
completed, and the exception that escaped the handler, if any. -/
structure HandlerResult where
  actions : List OutboundAction
  uncaught : Option PyError
deriving DecidableEq, Repr

/-- Python truthiness of an optional string: `None` and `""` are falsy. -/
def truthyStr : Option String → Bool
  | some s => s != ""
  | none => false

/-- The pattern `x if x else 'N/A'` applied to an optional string field. -/
def strOrNA : Option String → String
  | some s => if s = "" then "N/A" else s
  | none => "N/A"

/-- Perform one send: it either raises (per the failure oracle) with nothing
performed, or completes having performed exactly that action. -/
def trySend (fail : OutboundAction → Bool) (a : OutboundAction) :
    Except PyError (List OutboundAction) :=
  if fail a then Except.error PyError.sendError else Except.ok [a]

/-- Lift a handler body with no surrounding `try` to a `HandlerResult`
(performed actions are those of a successful run; an error escapes). -/
def runHandler (r : Except PyError (List OutboundAction)) : HandlerResult :=
  match r with
  | Except.ok as => ⟨as, none⟩
  | Except.error e => ⟨[], some e⟩

/-- Welcome text sent by `start` (bot.py lines 53-57). -/
def welcomeText : String :=
  "👋 Welcome to User Info Bot!\n\nI can show information about forwarded messages.\n\nTry these options:"

/-- Keyboard of the welcome message (bot.py lines 49-52). -/
def startKeyboard : Keyboard :=
  [[⟨"Show My ID", "myid"⟩], [⟨"Help", "help"⟩]]

/-- Body of `UserInfoBot.start` (bot.py lines 47-58). -/
def start (fail : OutboundAction → Bool) (update : Update) :
    Except PyError (List OutboundAction) :=
  match update.message with
  | none => Except.error (PyError.attributeError "reply_text")
  | some _ => trySend fail (OutboundAction.sendMessage welcomeText none (some startKeyboard))

/-- Text of the `/myid` reply (bot.py lines 67-70). -/
def myidText (user : User) : String :=
  "🆔 <b>Your Telegram ID</b>\n├ ID: <code>" ++ toString user.id
    ++ "</code>\n├ Username: @" ++ strOrNA user.username
    ++ "\n└ Language: " ++ strOrNA user.language_code

/-- Keyboard of the `/myid` reply (bot.py lines 63-65). -/
def myidKeyboard : Keyboard := [[⟨"Refresh", "refresh_myid"⟩]]

/-- Body of `UserInfoBot.myid_command` (bot.py lines 60-73). -/
def myid_command (fail : OutboundAction → Bool) (update : Update) :
    Except PyError (List OutboundAction) :=
  match update.effective_user with
  | none => Except.error (PyError.attributeError "id")
  | some user =>
    match update.message with
    | none => Except.error (PyError.attributeError "reply_text")
    | some _ =>
      trySend fail (OutboundAction.sendMessage (myidText user) (some "HTML") (some myidKeyboard))

/-- Static help text (bot.py lines 78-85). -/
def helpText : String :=
  "ℹ️ <b>Bot Help</b>\n\n<b>Commands:</b>\n/start - Welcome message\n/myid - Show your Telegram ID\n/help - This message\n\n<b>How to use:</b>\n1. Forward any message to see sender info\n2. Some info may be hidden due to privacy settings"

/-- Body of `UserInfoBot.help_command` (bot.py lines 75-87): it replies via
`update.message.reply_text`, which raises when the update has no message. -/
def help_command (fail : OutboundAction → Bool) (update : Update) :
    Except PyError (List OutboundAction) :=
  match update.message with
  | none => Except.error (PyError.attributeError "reply_text")
  | some _ => trySend fail (OutboundAction.sendMessage helpText (some "HTML") none)

/-- Text of the user-info block (bot.py lines 118-122). -/
def userInfoText (user : User) : String :=
  "👤 <b>User Information</b>\n├ ID: <code>" ++ toString user.id
    ++ "</code>\n├ Username: @" ++ strOrNA user.username
    ++ "\n├ Bot: " ++ (if user.is_bot then "✅ Yes" else "❌ No")
    ++ "\n└ Language: " ++ strOrNA user.language_code

/-- Keyboard of the user-info block (bot.py lines 113-116). -/
def userInfoKeyboard (user : User) : Keyboard :=
  [[⟨"Refresh", "refresh_user_" ++ toString user.id⟩], [⟨"Close", "close"⟩]]

/-- Body of `UserInfoBot.show_user_info` (bot.py lines 111-124). -/
def show_user_info (fail : OutboundAction → Bool) (user : User) :
    Except PyError (List OutboundAction) :=
  trySend fail
    (OutboundAction.sendMessage (userInfoText user) (some "HTML") (some (userInfoKeyboard user)))

/-- The "forward me a message" prompt (bot.py lines 104-106). -/
def promptAction : OutboundAction :=
  OutboundAction.sendMessage "ℹ️ Forward me a message to see info about the sender"
    none (some [[⟨"What can I do?", "help"⟩]])

/-- The generic error reply sent from the `except` block (bot.py line 109). -/
def errorReplyAction : OutboundAction :=
  OutboundAction.sendMessage "⚠️ An error occurred while processing your message" none none

/-- The `try` block of `UserInfoBot.handle_message` (bot.py lines 93-106).
The chat-forward branch calls `self.show_chat_info` and the anonymous-forward
branch calls `self.show_private_forward`; neither method exists on the class,
so both attribute lookups raise `AttributeError`. -/
def handle_message_try (fail : OutboundAction → Bool) (msg : Msg) :
    Except PyError (List OutboundAction) :=
  match msg.forward_from with
  | some user => show_user_info fail user
  | none =>
    match msg.forward_from_chat with
    | some _ => Except.error (PyError.attributeError "show_chat_info")
    | none =>
      if truthyStr msg.forward_sender_name then
        Except.error (PyError.attributeError "show_private_forward")
      else if msg.forward_date.isNone then
        trySend fail promptAction
      else
        Except.ok []

/-- Body of `UserInfoBot.handle_message` (bot.py lines 89-109): the `try`
block, with any exception caught and answered by the generic error reply;
if that reply itself fails to send, the new exception escapes. -/
def handle_message (fail : OutboundAction → Bool) (msg : Msg) : HandlerResult :=
  match handle_message_try fail msg with
  | Except.ok as => ⟨as, none⟩
  | Except.error _ =>
    if fail errorReplyAction then ⟨[], some PyError.sendError⟩
    else ⟨[errorReplyAction], none⟩

/-- Text of the in-place edit for the `myid` button (bot.py lines 134-135). -/
def myidEditText (user : User) : String :=
  "🆔 <b>Your ID</b>: <code>" ++ toString user.id
    ++ "</code>\n👤 <b>Username</b>: @" ++ strOrNA user.username

/-- Body of `UserInfoBot.handle_button_press` (bot.py lines 126-141).  There
is no `try` around it: any exception escapes.  `query.answer()` runs first;
then an exact match on the payload; the `help` branch delegates to
`help_command` on the same update (whose `message` field, for a callback
update, is absent). -/
def handle_button_press (fail : OutboundAction → Bool) (update : Update) : HandlerResult :=
  match update.callback_query with
  | none => ⟨[], some (PyError.attributeError "answer")⟩
  | some query =>
    if fail OutboundAction.answerCallback then ⟨[], some PyError.sendError⟩
    else
      let acked := [OutboundAction.answerCallback]
      if query.data = "myid" then
        let a := OutboundAction.editMessageText (myidEditText query.from_user) (some "HTML") none
        if fail a then ⟨acked, some PyError.sendError⟩ else ⟨acked ++ [a], none⟩
      else if query.data = "help" then
        match help_command fail update with
        | Except.ok as => ⟨acked ++ as, none⟩
        | Except.error e => ⟨acked, some e⟩
      else if query.data = "close" then
        if fail OutboundAction.deleteMessage then ⟨acked, some PyError.sendError⟩
        else ⟨acked ++ [OutboundAction.deleteMessage], none⟩
      else ⟨acked, none⟩

/-- The three registered slash commands. -/
inductive CommandName where
  | start
  | myid
  | help
deriving DecidableEq, Repr

/-- Dispatch of a command update to its registered handler (bot.py
lines 41-43); command handlers have no surrounding `try`. -/
def on_command (fail : OutboundAction → Bool) (name : CommandName) (update : Update) :
    HandlerResult :=
  match name with
  | CommandName.start => runHandler (start fail update)
  | CommandName.myid => runHandler (myid_command fail update)
  | CommandName.help => runHandler (help_command fail update)

/-- Failure oracle under which every send succeeds. -/
def noFail : OutboundAction → Bool := fun _ => false

/-- Number of positions of `s` at which `pat` occurs as a substring. -/
def countSubAux (pat : List Char) : List Char → Nat
  | [] => 0
  | c :: rest => (if pat.isPrefixOf (c :: rest) then 1 else 0) + countSubAux pat rest

/-- Number of occurrences of the non-empty pattern `pat` in `s`. -/
def countOccs (pat s : String) : Nat := countSubAux pat.toList s.toList

/-- Actions visible to the user as a reply (send, edit or delete), as opposed
to the callback acknowledgement. -/
def isReply : OutboundAction → Bool
  | OutboundAction.answerCallback => false
  | _ => true

/-- Number of user-visible replies a handler run performed. -/
def replyCount (r : HandlerResult) : Nat := (r.actions.filter isReply).length

/-- Whether an action is the callback acknowledgement. -/
def isAck : OutboundAction → Bool
  | OutboundAction.answerCallback => true
  | _ => false

/-- Number of callback acknowledgements a handler run performed. -/
def ackCount (r : HandlerResult) : Nat := (r.actions.filter isAck).length

/-- A message forwarded from a chat/channel: `forward_from` absent,
`forward_from_chat` present. -/
def chatForwardMsg : Msg :=
  { from_user := none, forward_from := none, forward_from_chat := some ⟨777, some "Some Channel"⟩,
    forward_sender_name := none, forward_date := some 1700000000 }

/-- A privacy-restricted forward: only `forward_sender_name` is present. -/
def anonForwardMsg : Msg :=
  { from_user := none, forward_from := none, forward_from_chat := none,
    forward_sender_name := some "John Doe", forward_date := some 1700000000 }

/-- The user of claim C5: id 42, no handle, not a bot, no language. -/
def user42 : User := { id := 42, username := none, is_bot := false, language_code := none }


/-- C1: a PlainMessage forwarded from a chat reaches the `show_chat_info`
branch, but the class defines no such method: the lookup raises
`AttributeError`, the `except` block catches it, and the user receives the
generic error reply instead of a chat-info block. -/
theorem C1_chat_forward_yields_error_reply :
    handle_message_try noFail chatForwardMsg
        = Except.error (PyError.attributeError "show_chat_info")
    ∧ handle_message noFail chatForwardMsg = ⟨[errorReplyAction], none⟩ :=
  ⟨rfl, by decide⟩

/-- C2: a privacy-restricted forward (only `forward_sender_name` present)
reaches the `show_private_forward` branch, but the class defines no such
method: the lookup raises `AttributeError` and the user receives the generic
error reply instead of a display-name block. -/
theorem C2_anon_forward_yields_error_reply :
    handle_message_try noFail anonForwardMsg
        = Except.error (PyError.attributeError "show_private_forward")
    ∧ handle_message noFail anonForwardMsg = ⟨[errorReplyAction], none⟩ :=
  ⟨rfl, by decide⟩

/-- C5: a message forwarded from user 42 (no handle, not a bot, no language)
is answered, whatever the other message fields hold, by the user-info block
whose text contains `42`, contains `N/A` exactly twice, contains the `❌`
glyph, and which carries exactly the two buttons `Refresh` (keyed
`refresh_user_42`) and `Close`. -/
theorem C5_user42_forward_reply (fu : Option User) (ffc : Option Chat)
    (fsn : Option String) (fd : Option Nat) :
    handle_message noFail
        { from_user := fu, forward_from := some user42, forward_from_chat := ffc,
          forward_sender_name := fsn, forward_date := fd }
      = ⟨[OutboundAction.sendMessage (userInfoText user42) (some "HTML")
            (some (userInfoKeyboard user42))], none⟩
    ∧ (countOccs "42" (userInfoText user42) != 0) = true
    ∧ countOccs "N/A" (userInfoText user42) = 2
    ∧ (countOccs "❌" (userInfoText user42) != 0) = true
    ∧ userInfoKeyboard user42 = [[⟨"Refresh", "refresh_user_42"⟩], [⟨"Close", "close"⟩]] :=
  ⟨rfl, by decide, by decide, by decide, by decide⟩

/-- C7: a message carrying forward metadata (`forward_date` present) whose
`forward_from`, `forward_from_chat` are absent and whose
`forward_sender_name` is falsy matches no branch of `handle_message`: no
outbound action is produced and nothing is raised. -/
theorem C7_bare_forward_no_action (fail : OutboundAction → Bool) (fu : Option User)
    (fsn : Option String) (d : Nat) (h : truthyStr fsn = false) :
    handle_message fail
        { from_user := fu, forward_from := none, forward_from_chat := none,
          forward_sender_name := fsn, forward_date := some d }
      = ⟨[], none⟩ := by
  unfold handle_message handle_message_try
  simp [h]

/-- Witness for C7 at the empty-string (falsy in Python) sender name. -/
theorem C7_bare_forward_no_action_witness :
    truthyStr (some "") = false ∧
    handle_message noFail
        { from_user := none, forward_from := none, forward_from_chat := none,
          forward_sender_name := some "", forward_date := some 123 }
      = ⟨[], none⟩ :=
  ⟨rfl, C7_bare_forward_no_action noFail none (some "") 123 rfl⟩

/-- A real button press carries only a callback query: the update's
`message` field is absent (Telegram sets exactly one update kind). -/
def helpPressUpdate : Update :=
  { message := none, callback_query := some { data := "help", from_user := user42 } }

/-- C3 counterexample: `handle_button_press` has no try/except.  Pressing
`help` delegates to `help_command`, which evaluates
`update.message.reply_text` on an update with no message; the resulting
`AttributeError` escapes the handler and no error reply is sent. -/
theorem C3_cex_button_press_exception_escapes :
    (handle_button_press noFail helpPressUpdate).uncaught
        = some (PyError.attributeError "reply_text")
    ∧ replyCount (handle_button_press noFail helpPressUpdate) = 0 := by decide

/-- C3 (amended): only `handle_message` has the catch-log-reply boundary.
Provided the error reply itself sends successfully, no exception escapes
`handle_message`, and whenever its try block raised, the performed actions
are exactly the one generic error reply. -/
theorem C3_handle_message_boundary (fail : OutboundAction → Bool) (msg : Msg)
    (h : fail errorReplyAction = false) :
    (handle_message fail msg).uncaught = none
    ∧ (∀ e, handle_message_try fail msg = Except.error e →
        (handle_message fail msg).actions = [errorReplyAction]) := by
  unfold handle_message
  cases handle_message_try fail msg with
  | ok as => exact ⟨rfl, fun e he => Except.noConfusion he⟩
  | error e => simp [h]

/-- Witness for the amended C3 at a chat-forward message, whose try block
raises `AttributeError`. -/
theorem C3_handle_message_boundary_witness :
    noFail errorReplyAction = false ∧
    ((handle_message noFail chatForwardMsg).uncaught = none
      ∧ (∀ e, handle_message_try noFail chatForwardMsg = Except.error e →
          (handle_message noFail chatForwardMsg).actions = [errorReplyAction])) :=
  ⟨rfl, C3_handle_message_boundary noFail chatForwardMsg rfl⟩

/-- C4: pressing the `help` button does not produce a help block.  The
branch calls `help_command` on the callback update, whose `message` is
absent, so `update.message.reply_text` raises `AttributeError`; every press
acknowledges the callback and then fails the same way, and no help text is
ever sent. -/
theorem C4_help_press_raises :
    handle_button_press noFail helpPressUpdate
      = ⟨[OutboundAction.answerCallback], some (PyError.attributeError "reply_text")⟩ := by
  decide

theorem handle_message_try_ok_len (fail : OutboundAction → Bool) (msg : Msg)
    (as : List OutboundAction) (h : handle_message_try fail msg = Except.ok as) :
    as.length ≤ 1 := by
  unfold handle_message_try show_user_info trySend at h
  split at h
  · split at h
    · cases h
    · cases h; simp
  · split at h
    · cases h
    · split at h
      · cases h
      · split at h
        · split at h
          · cases h
          · cases h; simp
        · cases h; simp

theorem start_ok_len (fail : OutboundAction → Bool) (upd : Update)
    (as : List OutboundAction) (h : start fail upd = Except.ok as) : as.length ≤ 1 := by
  unfold start trySend at h
  split at h
  · cases h
  · split at h
    · cases h
    · cases h; simp

theorem myid_command_ok_len (fail : OutboundAction → Bool) (upd : Update)
    (as : List OutboundAction) (h : myid_command fail upd = Except.ok as) : as.length ≤ 1 := by
  unfold myid_command trySend at h
  split at h
  · cases h
  · split at h
    · cases h
    · split at h
      · cases h
      · cases h; simp

theorem help_command_ok_eq (fail : OutboundAction → Bool) (upd : Update)
    (as : List OutboundAction) (h : help_command fail upd = Except.ok as) :
    as = [OutboundAction.sendMessage helpText (some "HTML") none] := by
  unfold help_command trySend at h
  split at h
  · cases h
  · split at h
    · cases h
    · cases h; rfl

theorem replyCount_runHandler_le (r : Except PyError (List OutboundAction))
    (h : ∀ as, r = Except.ok as → as.length ≤ 1) : replyCount (runHandler r) ≤ 1 := by
  cases r with
  | ok as =>
    exact le_trans (by simpa [runHandler, replyCount] using List.length_filter_le isReply as)
      (h as rfl)
  | error e => simp [runHandler, replyCount]

theorem replyCount_handle_message_le (fail : OutboundAction → Bool) (msg : Msg) :
    replyCount (handle_message fail msg) ≤ 1 := by
  unfold handle_message
  cases htry : handle_message_try fail msg with
  | ok as =>
    exact le_trans (by simpa [replyCount] using List.length_filter_le isReply as)
      (handle_message_try_ok_len fail msg as htry)
  | error e =>
    split
    · rename_i as heq; exact Except.noConfusion heq
    · split <;> simp [replyCount, isReply, errorReplyAction]

theorem replyCount_handle_button_press_le (fail : OutboundAction → Bool) (upd : Update) :
    replyCount (handle_button_press fail upd) ≤ 1 := by
  unfold handle_button_press
  cases upd.callback_query with
  | none => simp [replyCount]
  | some q =>
    by_cases hack : fail OutboundAction.answerCallback = true
    · simp [hack, replyCount]
    · simp only [hack, if_false, Bool.false_eq_true]
      by_cases h1 : q.data = "myid"
      · simp only [h1, if_true, if_pos]
        split <;> simp [replyCount, isReply]
      · simp only [h1, if_false]
        by_cases h2 : q.data = "help"
        · simp only [h2, if_true, if_pos]
          cases hhc : help_command fail upd with
          | ok as => rw [help_command_ok_eq fail upd as hhc]; simp [replyCount, isReply]
          | error e => simp [replyCount, isReply]
        · simp only [h2, if_false]
          by_cases h3 : q.data = "close"
          · simp only [h3, if_true, if_pos]
            split <;> simp [replyCount, isReply]
          · simp [h1, h2, h3, replyCount, isReply]

theorem replyCount_on_command_le (fail : OutboundAction → Bool) (name : CommandName)
    (upd : Update) : replyCount (on_command fail name upd) ≤ 1 := by
  cases name with
  | start => exact replyCount_runHandler_le _ (start_ok_len fail upd)
  | myid => exact replyCount_runHandler_le _ (myid_command_ok_len fail upd)
  | help =>
    exact replyCount_runHandler_le _ (fun as h => by
      rw [help_command_ok_eq fail upd as h]; simp)

/-- C6: no handler ever performs more than one user-visible reply (send,
edit or delete) per inbound event, on any branch including the error path,
under any pattern of send failures. -/
theorem C6_at_most_one_reply (fail : OutboundAction → Bool) (msg : Msg)
    (upd : Update) (name : CommandName) :
    replyCount (handle_message fail msg) ≤ 1
    ∧ replyCount (handle_button_press fail upd) ≤ 1
    ∧ replyCount (on_command fail name upd) ≤ 1 :=
  ⟨replyCount_handle_message_le fail msg, replyCount_handle_button_press_le fail upd,
    replyCount_on_command_le fail name upd⟩

/-- A slash-command update: a fresh non-forwarded message from `actor`. -/
def commandUpdate (actor : User) : Update :=
  { message := some { from_user := some actor, forward_from := none, forward_from_chat := none,
                      forward_sender_name := none, forward_date := none },
    callback_query := none }

/-- The actor of the C8 end-to-end scenario. -/
def actor100 : User :=
  { id := 100, username := some "alice", is_bot := false, language_code := some "en" }

theorem myidText_ne_empty (u : User) : myidText u ≠ "" := by
  intro h
  have h1 := congrArg String.length h
  unfold myidText at h1
  simp only [String.length_append] at h1
  have h2 : 0 < String.length "🆔 <b>Your Telegram ID</b>\n├ ID: <code>" := by decide
  have h3 : String.length "" = 0 := rfl
  omega

/-- C8: each of the three commands replies with one new message of non-empty
text following its template; `start` carries the Show-My-ID/Help buttons and
`myid` the single Refresh button; and `/myid` from actor 100 (`alice`, `en`)
yields text containing `100`, `@alice` and `en`. -/
theorem C8_commands (actor : User) :
    on_command noFail CommandName.start (commandUpdate actor)
        = ⟨[OutboundAction.sendMessage welcomeText none (some startKeyboard)], none⟩
    ∧ on_command noFail CommandName.help (commandUpdate actor)
        = ⟨[OutboundAction.sendMessage helpText (some "HTML") none], none⟩
    ∧ on_command noFail CommandName.myid (commandUpdate actor)
        = ⟨[OutboundAction.sendMessage (myidText actor) (some "HTML") (some myidKeyboard)], none⟩
    ∧ welcomeText ≠ "" ∧ helpText ≠ "" ∧ myidText actor ≠ ""
    ∧ startKeyboard = [[⟨"Show My ID", "myid"⟩], [⟨"Help", "help"⟩]]
    ∧ myidKeyboard = [[⟨"Refresh", "refresh_myid"⟩]]
    ∧ (countOccs "100" (myidText actor100) != 0) = true
    ∧ (countOccs "@alice" (myidText actor100) != 0) = true
    ∧ (countOccs "en" (myidText actor100) != 0) = true :=
  ⟨rfl, rfl, rfl, by decide, by decide, myidText_ne_empty actor, rfl, rfl,
    by decide, by decide, by decide⟩

/-- C9: `query.answer()` runs first in `handle_button_press`, before any
branching on the payload; provided the acknowledgement call itself succeeds,
every press — matched payload, unmatched payload such as `refresh_myid` or
`refresh_user_<id>`, or a branch that subsequently fails — acknowledges the
callback exactly once. -/
theorem C9_ack_exactly_once (fail : OutboundAction → Bool) (m : Option Msg)
    (q : CallbackQuery) (h : fail OutboundAction.answerCallback = false) :
    ackCount (handle_button_press fail { message := m, callback_query := some q }) = 1 := by
  unfold ackCount handle_button_press
  simp only [h, Bool.false_eq_true, if_false]
  by_cases h1 : q.data = "myid"
  · simp only [h1, if_pos, if_true]
    split <;> simp [isAck]
  · simp only [h1, if_false]
    by_cases h2 : q.data = "help"
    · simp only [h2, if_pos, if_true]
      cases hhc : help_command fail { message := m, callback_query := some q } with
      | ok as =>
        rw [help_command_ok_eq fail _ as hhc]
        simp [isAck]
      | error e => simp [isAck]
    · simp only [h2, if_false]
      by_cases h3 : q.data = "close"
      · simp only [h3, if_pos, if_true]
        split <;> simp [isAck]
      · simp [h1, h2, h3, isAck]

/-- Witness for C9 at an unmatched `refresh_user_42` payload. -/
theorem C9_ack_exactly_once_witness :
    noFail OutboundAction.answerCallback = false ∧
    ackCount (handle_button_press noFail
        { message := none, callback_query := some ⟨"refresh_user_42", user42⟩ }) = 1 :=
  ⟨rfl, C9_ack_exactly_once noFail none ⟨"refresh_user_42", user42⟩ rfl⟩

/-- C10: pressing `myid` edits the target message in place, supplying new
text with HTML parse mode and no reply markup at all — the edit carries
`none` for the keyboard, which is what strips the previous buttons. -/
theorem C10_myid_edit_carries_no_markup (fail : OutboundAction → Bool) (m : Option Msg)
    (u : User)
    (hack : fail OutboundAction.answerCallback = false)
    (hedit : fail (OutboundAction.editMessageText (myidEditText u) (some "HTML") none) = false) :
    handle_button_press fail { message := m, callback_query := some ⟨"myid", u⟩ }
      = ⟨[OutboundAction.answerCallback,
          OutboundAction.editMessageText (myidEditText u) (some "HTML") none], none⟩ := by
  unfold handle_button_press
  simp [hack, hedit]

/-- Witness for C10 at user 42 with no transport failures. -/
theorem C10_myid_edit_carries_no_markup_witness :
    noFail OutboundAction.answerCallback = false ∧
    noFail (OutboundAction.editMessageText (myidEditText user42) (some "HTML") none) = false ∧
    handle_button_press noFail { message := none, callback_query := some ⟨"myid", user42⟩ }
      = ⟨[OutboundAction.answerCallback,
          OutboundAction.editMessageText (myidEditText user42) (some "HTML") none], none⟩ :=
  ⟨rfl, rfl, C10_myid_edit_carries_no_markup noFail none user42 rfl rfl⟩
